import Mathlib

/-!
Shallow embedding of the client-side real-time data manager
(src/lib/real-time-data.ts, class RealTimeDataManager) and proofs about its
caching, deduplication, retry, fallback, subscription and auto-refresh
behaviour.

Modelling conventions:
* Machine time (Date.now) is an explicit Nat parameter threaded through calls;
  retry sleeps advance the clock by the slept delay.
* Promise-returning methods become pure functions over an explicit manager
  state; one fetchData call is evaluated as one sequential execution, and the
  claims that speak about interleavings quantify explicitly over the states at
  the await points (fetch completion, waitForLoader polls, interval ticks).
* The caller-supplied fetcher is an oracle Nat -> Except E T giving the outcome
  of its n-th invocation inside one fetchData call.
* Subscriber callbacks are identified by Nat handles; their behaviour is an
  environment cbEnv : Nat -> T -> Option Unit where none models a thrown
  exception, which the source catches and logs.
* retryAfter is stored as an exact rational because Math.pow(1.5, n) * 1000 is
  float arithmetic in the source and is not integral for n >= 4.
-/

namespace RealTimeData

/-- interface CacheEntry, lines 6-10 of real-time-data.ts. -/
structure CacheEntry (T : Type) where
  data : T
  timestamp : Nat
  expiresAt : Nat
deriving DecidableEq

/-- interface LoaderState, lines 12-17. -/
structure LoaderState where
  isLoading : Bool
  lastFetch : Nat
  errorCount : Nat
  retryAfter : Option ℚ
deriving DecidableEq

/-- Configuration, line 26. -/
def defaultCacheDuration : Nat := 30000

/-- Configuration, line 27. -/
def criticalDataCacheDuration : Nat := 5000

/-- Configuration, line 28. -/
def maxRetries : Nat := 3

/-- Configuration, line 29: backoffMultiplier = 1.5. -/
def backoffMultiplier : ℚ := 3 / 2

/-- The options bag of fetchData, lines 37-42. -/
structure FetchOptions where
  cacheDuration : Nat
  critical : Bool
  autoRefresh : Bool
  retryOnError : Bool
deriving DecidableEq

/-- The defaulting of the options bag, lines 44-49. -/
def defaultOptions : FetchOptions :=
  { cacheDuration := defaultCacheDuration, critical := false,
    autoRefresh := true, retryOnError := true }

/-- The four maps owned by class RealTimeDataManager, lines 19-23, as
functions from keys. Subscribers are kept as an insertion-ordered duplicate
free list of callback handles, matching the JS Set. -/
structure RealTimeDataManager (T : Type) where
  cache : String → Option (CacheEntry T)
  loaders : String → Option LoaderState
  subscribers : String → Option (List Nat)
  refreshIntervals : String → Option Nat

/-- Map.set (with some) and Map.delete (with none) on the function-backed
maps. -/
def mapUpdate {α : Type} (m : String → Option α) (key : String) (v : Option α) :
    String → Option α :=
  fun k => if k = key then v else m k

/-- getFromCache, lines 261-271: return the data of an unexpired entry; when
Date.now() is past expiresAt, delete the entry and miss. The result is the
read value together with the possibly-updated cache map. -/
def getFromCache {T : Type} (cache : String → Option (CacheEntry T)) (key : String)
    (now : Nat) : Option T × (String → Option (CacheEntry T)) :=
  match cache key with
  | none => (none, cache)
  | some entry =>
    if entry.expiresAt < now then (none, mapUpdate cache key none)
    else (some entry.data, cache)

/-- setCache, lines 273-279. -/
def setCache {T : Type} (cache : String → Option (CacheEntry T)) (key : String)
    (d : T) (duration : Nat) (now : Nat) : String → Option (CacheEntry T) :=
  mapUpdate cache key (some { data := d, timestamp := now, expiresAt := now + duration })

/-- shouldRefresh, lines 281-289: age > maxAge * 0.8, where maxAge is one of
the two MANAGER constants (5000 when critical, else 30000); the per-call
cacheDuration option is not consulted. The comparison 10 * age > 8 * maxAge
is exact for both constants (thresholds 4000 and 24000). -/
def shouldRefresh {T : Type} (cache : String → Option (CacheEntry T)) (key : String)
    (critical : Bool) (now : Nat) : Bool :=
  match cache key with
  | none => true
  | some entry =>
    let age := now - entry.timestamp
    let maxAge := if critical then criticalDataCacheDuration else defaultCacheDuration
    decide (8 * maxAge < 10 * age)

/-- getLoaderState, lines 291-297. -/
def getLoaderState (loaders : String → Option LoaderState) (key : String) : LoaderState :=
  (loaders key).getD { isLoading := false, lastFetch := 0, errorCount := 0, retryAfter := none }

/-- setLoaderState, lines 299-301. -/
def setLoaderState {T : Type} (st : RealTimeDataManager T) (key : String)
    (s : LoaderState) : RealTimeDataManager T :=
  { st with loaders := mapUpdate st.loaders key (some s) }

/-- Inter-attempt retry delay Math.pow(1.5, attempt) * 1000, line 343. The
Nat expression is exact for every attempt index the loop can sleep on
(0, 1, 2, giving 1000, 1500, 2250). -/
def retryDelayMs (attempt : Nat) : Nat := 3 ^ attempt * 1000 / 2 ^ attempt

deriving instance DecidableEq for Except

/-- Observable behaviour of one executeWithRetry run: its result, the number
of fetcher invocations, and the list of slept inter-attempt delays. -/
structure RetryResult (E T : Type) where
  result : Except E T
  calls : Nat
  delays : List Nat
deriving DecidableEq

/-- The retry loop of executeWithRetry, lines 336-347: attempts run with the
given number of remaining further iterations; a failure with iterations left
sleeps retryDelayMs attempt and retries with the next attempt index; the
final failure is rethrown (line 349). -/
def retryLoop {E T : Type} (fetcher : Nat → Except E T) : Nat → Nat → RetryResult E T
  | 0, attempt =>
    match fetcher attempt with
    | Except.ok v => { result := Except.ok v, calls := 1, delays := [] }
    | Except.error e => { result := Except.error e, calls := 1, delays := [] }
  | r + 1, attempt =>
    match fetcher attempt with
    | Except.ok v => { result := Except.ok v, calls := 1, delays := [] }
    | Except.error _e =>
      let rest := retryLoop fetcher r (attempt + 1)
      { result := rest.result, calls := rest.calls + 1,
        delays := retryDelayMs attempt :: rest.delays }

/-- executeWithRetry, lines 323-350. When retryOnError is off or the loader
state already counts maxRetries consecutive failures, the fetcher is called
exactly once with no inner retry (lines 330-332); otherwise the retry loop
runs attempts 0..maxRetries. The errorCount read from the loader state at
line 328 is passed explicitly. -/
def executeWithRetry {E T : Type} (fetcher : Nat → Except E T) (errorCount : Nat)
    (retryOnError : Bool) : RetryResult E T :=
  if retryOnError = false ∨ maxRetries ≤ errorCount then
    { result := fetcher 0, calls := 1, delays := [] }
  else
    retryLoop fetcher maxRetries 0

/-- notifySubscribers, lines 352-363: every registered callback is invoked
with the data, in registration order; a callback that throws (cbEnv returning
none) is caught and logged, and iteration continues. Returns the invocation
log and the number of caught callback errors. -/
def notifySubscribers {T : Type} (cbEnv : Nat → T → Option Unit) (subs : List Nat)
    (d : T) : List (Nat × T) × Nat :=
  match subs with
  | [] => ([], 0)
  | i :: rest =>
    let tail := notifySubscribers cbEnv rest d
    match cbEnv i d with
    | some _ => ((i, d) :: tail.1, tail.2)
    | none => ((i, d) :: tail.1, tail.2 + 1)

/-- setupAutoRefresh, lines 365-389: clear any existing interval for the key
and install one whose period is options.cacheDuration || defaultCacheDuration
(JS falsy: a 0 duration falls back to the default). -/
def setupAutoRefresh (ivals : String → Option Nat) (key : String)
    (opts : FetchOptions) : String → Option Nat :=
  mapUpdate ivals key
    (some (if opts.cacheDuration = 0 then defaultCacheDuration else opts.cacheDuration))

/-- Result of one fetchData call: resolve with a value, reject with a fetcher
error, or collapse onto an in-flight fetch for the key (the waitForLoader
branch, lines 59-61, which settles separately through checkLoader polls). -/
inductive FetchResult (E T : Type) where
  | ok (v : T)
  | error (e : E)
  | deduped
deriving DecidableEq

/-- Observable outcome of one fetchData call: its result, the state it
leaves, how many times it invoked the fetcher, the subscriber invocation log,
the number of caught subscriber-callback errors, and the time it settles. -/
structure FetchOutcome (E T : Type) where
  result : FetchResult E T
  state : RealTimeDataManager T
  fetcherCalls : Nat
  notified : List (Nat × T)
  caughtCb : Nat
  endTime : Nat

/-- Success path of fetchData, lines 70-91: cache the data, notify the
subscribers of the key, arm the auto-refresh schedule when requested, and
reset the loader state. -/
def fetchSuccess {E T : Type} (cbEnv : Nat → T → Option Unit)
    (st2 : RealTimeDataManager T) (key : String) (d : T) (opts : FetchOptions)
    (tEnd calls : Nat) : FetchOutcome E T :=
  let cache2 := setCache st2.cache key d opts.cacheDuration tEnd
  let nt := notifySubscribers cbEnv ((st2.subscribers key).getD []) d
  let ivals2 := if opts.autoRefresh then setupAutoRefresh st2.refreshIntervals key opts
                else st2.refreshIntervals
  let st3 : RealTimeDataManager T :=
    { cache := cache2,
      loaders := mapUpdate st2.loaders key
        (some { isLoading := false, lastFetch := tEnd, errorCount := 0, retryAfter := none }),
      subscribers := st2.subscribers,
      refreshIntervals := ivals2 }
  { result := FetchResult.ok d, state := st3, fetcherCalls := calls,
    notified := nt.1, caughtCb := nt.2, endTime := tEnd }

/-- Failure path of fetchData, lines 93-115: bump the consecutive failure
count, store retryAfter = now + backoffMultiplier ^ newErrorCount * 1000,
clear the loading flag, then fall back to whatever entry sits in the cache
map (line 108, with no expiry re-check), else rethrow the error. -/
def fetchFailure {E T : Type} (st2 : RealTimeDataManager T) (key : String) (e : E)
    (prevErrorCount : Nat) (tEnd calls : Nat) : FetchOutcome E T :=
  let newErrorCount := prevErrorCount + 1
  let retryDelay : ℚ := backoffMultiplier ^ newErrorCount * 1000
  let st3 := setLoaderState st2 key
    { isLoading := false, lastFetch := tEnd, errorCount := newErrorCount,
      retryAfter := some ((tEnd : ℚ) + retryDelay) }
  match st3.cache key with
  | some fb =>
    { result := FetchResult.ok fb.data, state := st3, fetcherCalls := calls,
      notified := [], caughtCb := 0, endTime := tEnd }
  | none =>
    { result := FetchResult.error e, state := st3, fetcherCalls := calls,
      notified := [], caughtCb := 0, endTime := tEnd }

/-- fetchData after the cache check, lines 57-115: collapse onto an in-flight
fetch for the key, or mark the key loading (preserving errorCount, lines
63-68), run the fetcher through the retry policy, and take the success or
failure path. The settle time is t0 plus the slept retry delays. -/
def fetchCore {E T : Type} (cbEnv : Nat → T → Option Unit)
    (st1 : RealTimeDataManager T) (key : String) (fetcher : Nat → Except E T)
    (opts : FetchOptions) (t0 : Nat) : FetchOutcome E T :=
  let ls := getLoaderState st1.loaders key
  if ls.isLoading then
    { result := FetchResult.deduped, state := st1, fetcherCalls := 0,
      notified := [], caughtCb := 0, endTime := t0 }
  else
    let st2 := setLoaderState st1 key
      { isLoading := true, lastFetch := t0, errorCount := ls.errorCount, retryAfter := none }
    let rr := executeWithRetry fetcher ls.errorCount opts.retryOnError
    let tEnd := t0 + rr.delays.sum
    match rr.result with
    | Except.ok d => fetchSuccess cbEnv st2 key d opts tEnd rr.calls
    | Except.error e => fetchFailure st2 key e ls.errorCount tEnd rr.calls

/-- fetchData, lines 34-116: check the cache first (line 52, deleting a
hard-expired entry), return a still-fresh hit immediately without touching
the fetcher (lines 53-55), otherwise continue with fetchCore. -/
def fetchData {E T : Type} (cbEnv : Nat → T → Option Unit)
    (st : RealTimeDataManager T) (key : String) (fetcher : Nat → Except E T)
    (opts : FetchOptions) (t0 : Nat) : FetchOutcome E T :=
  match getFromCache st.cache key t0 with
  | (some v, cache1) =>
    if shouldRefresh cache1 key opts.critical t0 then
      fetchCore cbEnv { st with cache := cache1 } key fetcher opts t0
    else
      { result := FetchResult.ok v, state := { st with cache := cache1 },
        fetcherCalls := 0, notified := [], caughtCb := 0, endTime := t0 }
  | (none, cache1) => fetchCore cbEnv { st with cache := cache1 } key fetcher opts t0

/-- subscribe, lines 121-126: register a callback handle for the key (JS Set
add: duplicates are ignored, insertion order kept). -/
def subscribe {T : Type} (st : RealTimeDataManager T) (key : String) (cb : Nat) :
    RealTimeDataManager T :=
  let subs := (st.subscribers key).getD []
  let subs2 := if cb ∈ subs then subs else subs ++ [cb]
  { st with subscribers := mapUpdate st.subscribers key (some subs2) }

/-- The unsubscribe closure returned by subscribe, lines 129-143: drop the
callback; when the set becomes empty, delete the set and cancel the
auto-refresh interval of the key. -/
def unsubscribe {T : Type} (st : RealTimeDataManager T) (key : String) (cb : Nat) :
    RealTimeDataManager T :=
  match st.subscribers key with
  | none => st
  | some subs =>
    let subs2 := subs.erase cb
    if subs2.isEmpty then
      { st with subscribers := mapUpdate st.subscribers key none,
                refreshIntervals := mapUpdate st.refreshIntervals key none }
    else
      { st with subscribers := mapUpdate st.subscribers key (some subs2) }

/-- Outcome of one waitForLoader poll. noData stands for rejecting with the
freshly constructed Error with message Loader completed but no data
available, line 312; it carries no underlying fetcher error. -/
inductive WaitOutcome (T : Type) where
  | ok (v : T)
  | noData
  | stillLoading
deriving DecidableEq

/-- One poll of the checkLoader closure inside waitForLoader, lines 305-317:
once the loader is no longer loading, resolve with the cache read (which can
also delete a hard-expired entry) or reject with the no-data error; while
still loading, re-arm the 100ms poll. -/
def checkLoader {T : Type} (st : RealTimeDataManager T) (key : String) (now : Nat) :
    WaitOutcome T × RealTimeDataManager T :=
  if (getLoaderState st.loaders key).isLoading then (WaitOutcome.stillLoading, st)
  else
    match getFromCache st.cache key now with
    | (some v, cache1) => (WaitOutcome.ok v, { st with cache := cache1 })
    | (none, cache1) => (WaitOutcome.noData, { st with cache := cache1 })

/-- One interval tick armed by setupAutoRefresh, lines 377-386: refresh only
when the key still has at least one subscriber; the refresh runs with
autoRefresh forced off; its result is discarded and a failure is caught and
logged. Returns the state after the tick and the number of fetcher
invocations the tick performed. -/
def autoTick {E T : Type} (cbEnv : Nat → T → Option Unit)
    (st : RealTimeDataManager T) (key : String) (fetcher : Nat → Except E T)
    (opts : FetchOptions) (t : Nat) : RealTimeDataManager T × Nat :=
  match st.subscribers key with
  | some subs =>
    if 0 < subs.length then
      let out := fetchData cbEnv st key fetcher { opts with autoRefresh := false } t
      (out.state, out.fetcherCalls)
    else (st, 0)
  | none => (st, 0)

/-! ### Basic lemmas about the map primitives and the cache lookup -/

theorem mapUpdate_same {α : Type} (m : String → Option α) (key : String) (v : Option α) :
    mapUpdate m key v key = v := by
  simp [mapUpdate]

theorem getLoaderState_update (lo : String → Option LoaderState) (key : String)
    (s : LoaderState) : getLoaderState (mapUpdate lo key (some s)) key = s := by
  simp [getLoaderState, mapUpdate]

theorem getFromCache_none {T : Type} (cache : String → Option (CacheEntry T)) (key : String)
    (now : Nat) (h : cache key = none) : getFromCache cache key now = (none, cache) := by
  simp [getFromCache, h]

theorem getFromCache_live {T : Type} (cache : String → Option (CacheEntry T)) (key : String)
    (now : Nat) (e : CacheEntry T) (h : cache key = some e) (h2 : ¬ e.expiresAt < now) :
    getFromCache cache key now = (some e.data, cache) := by
  simp [getFromCache, h, h2]

theorem getFromCache_expired {T : Type} (cache : String → Option (CacheEntry T)) (key : String)
    (now : Nat) (e : CacheEntry T) (h : cache key = some e) (h2 : e.expiresAt < now) :
    getFromCache cache key now = (none, mapUpdate cache key none) := by
  simp [getFromCache, h, h2]

/-! ### Branch lemmas for fetchData and fetchCore -/

theorem fetchData_miss {E T : Type} (cbEnv : Nat → T → Option Unit) (st : RealTimeDataManager T)
    (key : String) (fetcher : Nat → Except E T) (opts : FetchOptions) (t0 : Nat)
    (h : st.cache key = none) :
    fetchData cbEnv st key fetcher opts t0 = fetchCore cbEnv st key fetcher opts t0 := by
  simp [fetchData, getFromCache_none st.cache key t0 h]

theorem fetchData_expired {E T : Type} (cbEnv : Nat → T → Option Unit)
    (st : RealTimeDataManager T) (key : String) (fetcher : Nat → Except E T)
    (opts : FetchOptions) (t0 : Nat) (e : CacheEntry T) (h : st.cache key = some e)
    (h2 : e.expiresAt < t0) :
    fetchData cbEnv st key fetcher opts t0 =
      fetchCore cbEnv { st with cache := mapUpdate st.cache key none } key fetcher opts t0 := by
  simp [fetchData, getFromCache_expired st.cache key t0 e h h2]

theorem fetchData_fresh {E T : Type} (cbEnv : Nat → T → Option Unit)
    (st : RealTimeDataManager T) (key : String) (fetcher : Nat → Except E T)
    (opts : FetchOptions) (t0 : Nat) (e : CacheEntry T) (h : st.cache key = some e)
    (h2 : ¬ e.expiresAt < t0) (h3 : shouldRefresh st.cache key opts.critical t0 = false) :
    fetchData cbEnv st key fetcher opts t0 =
      { result := FetchResult.ok e.data, state := st, fetcherCalls := 0,
        notified := [], caughtCb := 0, endTime := t0 } := by
  simp [fetchData, getFromCache_live st.cache key t0 e h h2, h3]

theorem fetchData_due {E T : Type} (cbEnv : Nat → T → Option Unit)
    (st : RealTimeDataManager T) (key : String) (fetcher : Nat → Except E T)
    (opts : FetchOptions) (t0 : Nat) (e : CacheEntry T) (h : st.cache key = some e)
    (h2 : ¬ e.expiresAt < t0) (h3 : shouldRefresh st.cache key opts.critical t0 = true) :
    fetchData cbEnv st key fetcher opts t0 = fetchCore cbEnv st key fetcher opts t0 := by
  simp [fetchData, getFromCache_live st.cache key t0 e h h2, h3]

theorem fetchCore_loading {E T : Type} (cbEnv : Nat → T → Option Unit)
    (st1 : RealTimeDataManager T) (key : String) (fetcher : Nat → Except E T)
    (opts : FetchOptions) (t0 : Nat) (h : (getLoaderState st1.loaders key).isLoading = true) :
    fetchCore cbEnv st1 key fetcher opts t0 =
      { result := FetchResult.deduped, state := st1, fetcherCalls := 0,
        notified := [], caughtCb := 0, endTime := t0 } := by
  simp [fetchCore, h]

theorem fetchCore_success {E T : Type} (cbEnv : Nat → T → Option Unit)
    (st1 : RealTimeDataManager T) (key : String) (fetcher : Nat → Except E T)
    (opts : FetchOptions) (t0 : Nat) (d : T)
    (h : (getLoaderState st1.loaders key).isLoading = false)
    (hrr : (executeWithRetry fetcher (getLoaderState st1.loaders key).errorCount
      opts.retryOnError).result = Except.ok d) :
    fetchCore cbEnv st1 key fetcher opts t0 =
      fetchSuccess cbEnv
        (setLoaderState st1 key
          { isLoading := true, lastFetch := t0,
            errorCount := (getLoaderState st1.loaders key).errorCount, retryAfter := none })
        key d opts
        (t0 + (executeWithRetry fetcher (getLoaderState st1.loaders key).errorCount
          opts.retryOnError).delays.sum)
        (executeWithRetry fetcher (getLoaderState st1.loaders key).errorCount
          opts.retryOnError).calls := by
  simp only [fetchCore, h, Bool.false_eq_true, if_false]
  split
  · next heq => rw [hrr] at heq; cases heq; rfl
  · next heq => rw [hrr] at heq; cases heq

theorem fetchCore_failure {E T : Type} (cbEnv : Nat → T → Option Unit)
    (st1 : RealTimeDataManager T) (key : String) (fetcher : Nat → Except E T)
    (opts : FetchOptions) (t0 : Nat) (e : E)
    (h : (getLoaderState st1.loaders key).isLoading = false)
    (hrr : (executeWithRetry fetcher (getLoaderState st1.loaders key).errorCount
      opts.retryOnError).result = Except.error e) :
    fetchCore cbEnv st1 key fetcher opts t0 =
      fetchFailure
        (setLoaderState st1 key
          { isLoading := true, lastFetch := t0,
            errorCount := (getLoaderState st1.loaders key).errorCount, retryAfter := none })
        key e (getLoaderState st1.loaders key).errorCount
        (t0 + (executeWithRetry fetcher (getLoaderState st1.loaders key).errorCount
          opts.retryOnError).delays.sum)
        (executeWithRetry fetcher (getLoaderState st1.loaders key).errorCount
          opts.retryOnError).calls := by
  simp only [fetchCore, h, Bool.false_eq_true, if_false]
  split
  · next heq => rw [hrr] at heq; cases heq
  · next heq => rw [hrr] at heq; cases heq; rfl

/-- A miss or a due entry always falls through the cache check into fetchCore,
run on the state left by the lookup. -/
theorem fetchData_to_core {E T : Type} (cbEnv : Nat → T → Option Unit)
    (st : RealTimeDataManager T) (key : String) (fetcher : Nat → Except E T)
    (opts : FetchOptions) (t0 : Nat)
    (hdue : (getFromCache st.cache key t0).1 = none ∨
      shouldRefresh (getFromCache st.cache key t0).2 key opts.critical t0 = true) :
    fetchData cbEnv st key fetcher opts t0 =
      fetchCore cbEnv { st with cache := (getFromCache st.cache key t0).2 } key
        fetcher opts t0 := by
  rcases hc : st.cache key with _ | e
  · rw [getFromCache_none st.cache key t0 hc]
    exact fetchData_miss cbEnv st key fetcher opts t0 hc
  · by_cases h2 : e.expiresAt < t0
    · rw [getFromCache_expired st.cache key t0 e hc h2]
      exact fetchData_expired cbEnv st key fetcher opts t0 e hc h2
    · rw [getFromCache_live st.cache key t0 e hc h2]
      rcases hdue with hdue | hdue
      · rw [getFromCache_live st.cache key t0 e hc h2] at hdue; cases hdue
      · rw [getFromCache_live st.cache key t0 e hc h2] at hdue
        exact fetchData_due cbEnv st key fetcher opts t0 e hc h2 hdue

/-! ### Field lemmas for the success and failure paths -/

theorem fetchSuccess_fields {E T : Type} (cbEnv : Nat → T → Option Unit)
    (st2 : RealTimeDataManager T) (key : String) (d : T) (opts : FetchOptions)
    (tEnd calls : Nat) :
    (fetchSuccess (E := E) cbEnv st2 key d opts tEnd calls).result = FetchResult.ok d ∧
    (fetchSuccess (E := E) cbEnv st2 key d opts tEnd calls).state.cache key =
      some { data := d, timestamp := tEnd, expiresAt := tEnd + opts.cacheDuration } ∧
    getLoaderState (fetchSuccess (E := E) cbEnv st2 key d opts tEnd calls).state.loaders key =
      { isLoading := false, lastFetch := tEnd, errorCount := 0, retryAfter := none } ∧
    (fetchSuccess (E := E) cbEnv st2 key d opts tEnd calls).notified =
      (notifySubscribers cbEnv ((st2.subscribers key).getD []) d).1 ∧
    (fetchSuccess (E := E) cbEnv st2 key d opts tEnd calls).fetcherCalls = calls := by
  refine ⟨rfl, ?_, ?_, rfl, rfl⟩
  · simp [fetchSuccess, setCache, mapUpdate]
  · simp [fetchSuccess, getLoaderState_update]

theorem fetchFailure_fallback {E T : Type} (st2 : RealTimeDataManager T) (key : String)
    (e : E) (pec tEnd calls : Nat) (fb : CacheEntry T) (h : st2.cache key = some fb) :
    (fetchFailure st2 key e pec tEnd calls).result = FetchResult.ok fb.data ∧
    (fetchFailure st2 key e pec tEnd calls).state.cache key = some fb ∧
    (fetchFailure st2 key e pec tEnd calls).fetcherCalls = calls ∧
    getLoaderState (fetchFailure st2 key e pec tEnd calls).state.loaders key =
      { isLoading := false, lastFetch := tEnd, errorCount := pec + 1,
        retryAfter := some ((tEnd : ℚ) + backoffMultiplier ^ (pec + 1) * 1000) } := by
  simp [fetchFailure, setLoaderState, h, getLoaderState_update]

theorem fetchFailure_throw {E T : Type} (st2 : RealTimeDataManager T) (key : String)
    (e : E) (pec tEnd calls : Nat) (h : st2.cache key = none) :
    (fetchFailure st2 key e pec tEnd calls).result = FetchResult.error e ∧
    (fetchFailure st2 key e pec tEnd calls).state.cache key = none ∧
    (fetchFailure st2 key e pec tEnd calls).fetcherCalls = calls ∧
    getLoaderState (fetchFailure st2 key e pec tEnd calls).state.loaders key =
      { isLoading := false, lastFetch := tEnd, errorCount := pec + 1,
        retryAfter := some ((tEnd : ℚ) + backoffMultiplier ^ (pec + 1) * 1000) } := by
  simp [fetchFailure, setLoaderState, h, getLoaderState_update]

theorem fetchFailure_calls {E T : Type} (st2 : RealTimeDataManager T) (key : String)
    (e : E) (pec tEnd calls : Nat) :
    (fetchFailure st2 key e pec tEnd calls).fetcherCalls = calls := by
  rcases h : st2.cache key with _ | fb
  · exact (fetchFailure_throw st2 key e pec tEnd calls h).2.2.1
  · exact (fetchFailure_fallback st2 key e pec tEnd calls fb h).2.2.1

/-! ### Lemmas about the retry policy -/

theorem retryLoop_fail3 {E T : Type} (fetcher : Nat → Except E T) (errs : Nat → E)
    (hf : ∀ n, fetcher n = Except.error (errs n)) :
    retryLoop fetcher 3 0 =
      { result := Except.error (errs 3), calls := 4, delays := [1000, 1500, 2250] } := by
  simp [retryLoop, hf 0, hf 1, hf 2, hf 3, retryDelayMs]

theorem retryLoop_firstOk {E T : Type} (fetcher : Nat → Except E T) (v : T) (r a : Nat)
    (h : fetcher a = Except.ok v) :
    retryLoop fetcher r a = { result := Except.ok v, calls := 1, delays := [] } := by
  cases r <;> simp [retryLoop, h]

theorem retryLoop_calls_pos {E T : Type} (fetcher : Nat → Except E T) (r a : Nat) :
    1 ≤ (retryLoop fetcher r a).calls := by
  cases r <;> rcases h : fetcher a with e | v <;> simp [retryLoop, h]

theorem executeWithRetry_single {E T : Type} (fetcher : Nat → Except E T) (ec : Nat)
    (ro : Bool) (h : ro = false ∨ maxRetries ≤ ec) :
    executeWithRetry fetcher ec ro = { result := fetcher 0, calls := 1, delays := [] } := by
  simp only [executeWithRetry]
  rw [if_pos h]

theorem executeWithRetry_loop {E T : Type} (fetcher : Nat → Except E T) (ec : Nat)
    (ro : Bool) (h1 : ro = true) (h2 : ec < maxRetries) :
    executeWithRetry fetcher ec ro = retryLoop fetcher maxRetries 0 := by
  simp only [executeWithRetry]
  rw [if_neg]
  rintro (hc | hc)
  · rw [h1] at hc; cases hc
  · omega

theorem executeWithRetry_calls_pos {E T : Type} (fetcher : Nat → Except E T) (ec : Nat)
    (ro : Bool) : 1 ≤ (executeWithRetry fetcher ec ro).calls := by
  by_cases h : ro = false ∨ maxRetries ≤ ec
  · rw [executeWithRetry_single fetcher ec ro h]
  · rcases Bool.eq_false_or_eq_true ro with hb | hb
    · rw [executeWithRetry_loop fetcher ec ro hb (by omega)]
      exact retryLoop_calls_pos fetcher maxRetries 0
    · exact absurd (Or.inl hb) h

theorem executeWithRetry_firstOk {E T : Type} (fetcher : Nat → Except E T) (ec : Nat)
    (ro : Bool) (v : T) (h : fetcher 0 = Except.ok v) :
    executeWithRetry fetcher ec ro = { result := Except.ok v, calls := 1, delays := [] } := by
  by_cases hc : ro = false ∨ maxRetries ≤ ec
  · rw [executeWithRetry_single fetcher ec ro hc, h]
  · rcases Bool.eq_false_or_eq_true ro with hb | hb
    · rw [executeWithRetry_loop fetcher ec ro hb (by omega)]
      exact retryLoop_firstOk fetcher v maxRetries 0 h
    · exact absurd (Or.inl hb) hc

theorem executeWithRetry_fail {E T : Type} (fetcher : Nat → Except E T) (errs : Nat → E)
    (ec : Nat) (ro : Bool) (hf : ∀ n, fetcher n = Except.error (errs n)) (h1 : ro = true)
    (h2 : ec < maxRetries) :
    executeWithRetry fetcher ec ro =
      { result := Except.error (errs 3), calls := 4, delays := [1000, 1500, 2250] } := by
  rw [executeWithRetry_loop fetcher ec ro h1 h2]
  exact retryLoop_fail3 fetcher errs hf

theorem executeWithRetry_fail_result {E T : Type} (fetcher : Nat → Except E T)
    (errs : Nat → E) (ec : Nat) (ro : Bool) (hf : ∀ n, fetcher n = Except.error (errs n)) :
    ∃ j, (executeWithRetry fetcher ec ro).result = Except.error (errs j) := by
  by_cases h : ro = false ∨ maxRetries ≤ ec
  · exact ⟨0, by rw [executeWithRetry_single fetcher ec ro h, hf 0]⟩
  · rcases Bool.eq_false_or_eq_true ro with hb | hb
    · exact ⟨3, by rw [executeWithRetry_fail fetcher errs ec ro hf hb (by omega)]⟩
    · exact absurd (Or.inl hb) h

theorem retryLoop3_spec {E T : Type} (fetcher : Nat → Except E T) :
    (retryLoop fetcher 3 0).calls ≤ 4 ∧
    (retryLoop fetcher 3 0).delays =
      (List.range ((retryLoop fetcher 3 0).calls - 1)).map retryDelayMs := by
  rcases h0 : fetcher 0 with e0 | v0 <;> rcases h1 : fetcher 1 with e1 | v1 <;>
    rcases h2 : fetcher 2 with e2 | v2 <;> rcases h3 : fetcher 3 with e3 | v3 <;>
    simp [retryLoop, h0, h1, h2, h3, retryDelayMs, List.range_succ]

/-! ### Lemmas about subscriber notification -/

theorem notifySubscribers_log {T : Type} (cbEnv : Nat → T → Option Unit) (d : T)
    (subs : List Nat) :
    (notifySubscribers cbEnv subs d).1 = subs.map (fun i => (i, d)) := by
  induction subs with
  | nil => simp [notifySubscribers]
  | cons i rest ih => rcases h : cbEnv i d with _ | u <;> simp [notifySubscribers, h, ih]

/-! ### Shape lemmas for whole fetchData runs -/

theorem fetchCore_calls {E T : Type} (cbEnv : Nat → T → Option Unit)
    (st1 : RealTimeDataManager T) (key : String) (fetcher : Nat → Except E T)
    (opts : FetchOptions) (t0 : Nat)
    (h : (getLoaderState st1.loaders key).isLoading = false) :
    (fetchCore cbEnv st1 key fetcher opts t0).fetcherCalls =
      (executeWithRetry fetcher (getLoaderState st1.loaders key).errorCount
        opts.retryOnError).calls := by
  rcases hrr : (executeWithRetry fetcher (getLoaderState st1.loaders key).errorCount
      opts.retryOnError).result with e | d
  · rw [fetchCore_failure cbEnv st1 key fetcher opts t0 e h hrr]
    exact fetchFailure_calls _ _ _ _ _ _
  · rw [fetchCore_success cbEnv st1 key fetcher opts t0 d h hrr]
    exact (fetchSuccess_fields cbEnv _ key d opts _ _).2.2.2.2

/-- Whenever a fetchData call resolves with a value, the state it leaves holds
a cache entry for the key carrying exactly that value (a fresh hit leaves the
old entry, a successful fetch writes the new one, a stale fallback keeps the
entry it fell back to). -/
theorem fetchData_ok_cache {E T : Type} (cbEnv : Nat → T → Option Unit)
    (st : RealTimeDataManager T) (key : String) (fetcher : Nat → Except E T)
    (opts : FetchOptions) (t0 : Nat) (d : T)
    (h : (fetchData cbEnv st key fetcher opts t0).result = FetchResult.ok d) :
    ∃ e, (fetchData cbEnv st key fetcher opts t0).state.cache key = some e ∧
      e.data = d := by
  have hcore : ∀ st1 : RealTimeDataManager T,
      (fetchCore cbEnv st1 key fetcher opts t0).result = FetchResult.ok d →
      ∃ e, (fetchCore cbEnv st1 key fetcher opts t0).state.cache key = some e ∧
        e.data = d := by
    intro st1 hc
    rcases hl : (getLoaderState st1.loaders key).isLoading with _ | _
    · rcases hrr : (executeWithRetry fetcher (getLoaderState st1.loaders key).errorCount
          opts.retryOnError).result with e | v
      · rw [fetchCore_failure cbEnv st1 key fetcher opts t0 e hl hrr] at hc ⊢
        rcases hfb : (setLoaderState st1 key
            { isLoading := true, lastFetch := t0,
              errorCount := (getLoaderState st1.loaders key).errorCount,
              retryAfter := none }).cache key with _ | fb
        · rw [(fetchFailure_throw _ key e _ _ _ hfb).1] at hc; cases hc
        · obtain ⟨hr, hck, _, _⟩ := fetchFailure_fallback _ key e
            (getLoaderState st1.loaders key).errorCount _ _ fb hfb
          rw [hr] at hc
          exact ⟨fb, hck, by simpa using hc⟩
      · rw [fetchCore_success cbEnv st1 key fetcher opts t0 v hl hrr] at hc ⊢
        obtain ⟨hr, hck, _, _, _⟩ := fetchSuccess_fields (E := E) cbEnv
          (setLoaderState st1 key
            { isLoading := true, lastFetch := t0,
              errorCount := (getLoaderState st1.loaders key).errorCount,
              retryAfter := none }) key v opts
          (t0 + (executeWithRetry fetcher (getLoaderState st1.loaders key).errorCount
            opts.retryOnError).delays.sum)
          (executeWithRetry fetcher (getLoaderState st1.loaders key).errorCount
            opts.retryOnError).calls
        rw [hr] at hc
        refine ⟨_, hck, ?_⟩
        simpa using hc
    · rw [fetchCore_loading cbEnv st1 key fetcher opts t0 hl] at hc; cases hc
  rcases hcch : st.cache key with _ | e
  · rw [fetchData_miss cbEnv st key fetcher opts t0 hcch] at h ⊢
    exact hcore st h
  · by_cases h2 : e.expiresAt < t0
    · rw [fetchData_expired cbEnv st key fetcher opts t0 e hcch h2] at h ⊢
      exact hcore _ h
    · rcases hsr : shouldRefresh st.cache key opts.critical t0 with _ | _
      · rw [fetchData_fresh cbEnv st key fetcher opts t0 e hcch h2 hsr] at h ⊢
        exact ⟨e, hcch, by simpa using h⟩
      · rw [fetchData_due cbEnv st key fetcher opts t0 e hcch h2 hsr] at h ⊢
        exact hcore st h

/-- A fetchData call entered with the key not loading leaves the key not
loading (the loading flag set at the start is cleared on both the success and
the failure path, and a fresh hit never sets it). -/
theorem fetchData_post_not_loading {E T : Type} (cbEnv : Nat → T → Option Unit)
    (st : RealTimeDataManager T) (key : String) (fetcher : Nat → Except E T)
    (opts : FetchOptions) (t0 : Nat)
    (h : (getLoaderState st.loaders key).isLoading = false) :
    (getLoaderState (fetchData cbEnv st key fetcher opts t0).state.loaders key).isLoading
      = false := by
  have hcore : ∀ st1 : RealTimeDataManager T, st1.loaders = st.loaders →
      (getLoaderState (fetchCore cbEnv st1 key fetcher opts t0).state.loaders key).isLoading
        = false := by
    intro st1 hlo
    have hl : (getLoaderState st1.loaders key).isLoading = false := by rw [hlo]; exact h
    rcases hrr : (executeWithRetry fetcher (getLoaderState st1.loaders key).errorCount
        opts.retryOnError).result with e | v
    · rw [fetchCore_failure cbEnv st1 key fetcher opts t0 e hl hrr]
      rcases hfb : (setLoaderState st1 key
          { isLoading := true, lastFetch := t0,
            errorCount := (getLoaderState st1.loaders key).errorCount,
            retryAfter := none }).cache key with _ | fb
      · rw [(fetchFailure_throw _ key e _ _ _ hfb).2.2.2]
      · rw [(fetchFailure_fallback _ key e _ _ _ fb hfb).2.2.2]
    · rw [fetchCore_success cbEnv st1 key fetcher opts t0 v hl hrr]
      rw [(fetchSuccess_fields cbEnv _ key v opts _ _).2.2.1]
  rcases hcch : st.cache key with _ | e
  · rw [fetchData_miss cbEnv st key fetcher opts t0 hcch]
    exact hcore st rfl
  · by_cases h2 : e.expiresAt < t0
    · rw [fetchData_expired cbEnv st key fetcher opts t0 e hcch h2]
      exact hcore _ rfl
    · rcases hsr : shouldRefresh st.cache key opts.critical t0 with _ | _
      · rw [fetchData_fresh cbEnv st key fetcher opts t0 e hcch h2 hsr]
        exact h
      · rw [fetchData_due cbEnv st key fetcher opts t0 e hcch h2 hsr]
        exact hcore st rfl

/-- A fetchData call on a key whose loader is in flight never invokes the
fetcher: either a fresh hit answers, or the call collapses onto the loader. -/
theorem fetchData_loading_calls {E T : Type} (cbEnv : Nat → T → Option Unit)
    (st : RealTimeDataManager T) (key : String) (fetcher : Nat → Except E T)
    (opts : FetchOptions) (t0 : Nat)
    (h : (getLoaderState st.loaders key).isLoading = true) :
    (fetchData cbEnv st key fetcher opts t0).fetcherCalls = 0 := by
  have hcore : ∀ st1 : RealTimeDataManager T, st1.loaders = st.loaders →
      (fetchCore cbEnv st1 key fetcher opts t0).fetcherCalls = 0 := by
    intro st1 hlo
    have hl : (getLoaderState st1.loaders key).isLoading = true := by rw [hlo]; exact h
    rw [fetchCore_loading cbEnv st1 key fetcher opts t0 hl]
  rcases hcch : st.cache key with _ | e
  · rw [fetchData_miss cbEnv st key fetcher opts t0 hcch]
    exact hcore st rfl
  · by_cases h2 : e.expiresAt < t0
    · rw [fetchData_expired cbEnv st key fetcher opts t0 e hcch h2]
      exact hcore _ rfl
    · rcases hsr : shouldRefresh st.cache key opts.critical t0 with _ | _
      · rw [fetchData_fresh cbEnv st key fetcher opts t0 e hcch h2 hsr]
      · rw [fetchData_due cbEnv st key fetcher opts t0 e hcch h2 hsr]
        exact hcore st rfl

/-! ### Concrete material for witnesses and counterexamples -/

/-- Callback environment where every subscriber callback returns normally. -/
def cbEnvW : Nat → Nat → Option Unit := fun _ _ => some ()

/-- A manager state with all four maps empty. -/
def emptyManager : RealTimeDataManager Nat :=
  { cache := fun _ => none, loaders := fun _ => none,
    subscribers := fun _ => none, refreshIntervals := fun _ => none }

/-- A fetcher that always resolves with v. -/
def fetcherOk (v : Nat) : Nat → Except Nat Nat := fun _ => Except.ok v

/-- A fetcher whose n-th attempt rejects with error n. -/
def fetcherFail : Nat → Except Nat Nat := fun n => Except.error n

/-- A fetcher failing twice, then resolving with 42. -/
def fetcherTwoFail : Nat → Except Nat Nat :=
  fun n => if n < 2 then Except.error n else Except.ok 42

/-! ### C2: cache hits and the freshness threshold -/

/-- C2 (amended): for every key holding a cache entry that is not hard-expired
at call time and whose age is at most 80% of the MANAGER default duration -
5000ms when the call passes critical=true, otherwise the manager constant
30000ms, irrespective of the per-call cacheDuration option - fetchData
returns the cached value without invoking the fetcher, leaving the entry in
place. -/
theorem cache_hit_suppresses_fetch {E T : Type} (cbEnv : Nat → T → Option Unit)
    (st : RealTimeDataManager T) (key : String) (fetcher : Nat → Except E T)
    (opts : FetchOptions) (t0 : Nat) (e : CacheEntry T)
    (hc : st.cache key = some e) (hexp : ¬ e.expiresAt < t0)
    (hfresh : ¬ 8 * (if opts.critical then criticalDataCacheDuration
      else defaultCacheDuration) < 10 * (t0 - e.timestamp)) :
    (fetchData cbEnv st key fetcher opts t0).result = FetchResult.ok e.data ∧
    (fetchData cbEnv st key fetcher opts t0).fetcherCalls = 0 ∧
    (fetchData cbEnv st key fetcher opts t0).state.cache key = some e := by
  have h3 : shouldRefresh st.cache key opts.critical t0 = false := by
    simp only [shouldRefresh, hc]
    exact decide_eq_false hfresh
  rw [fetchData_fresh cbEnv st key fetcher opts t0 e hc hexp h3]
  exact ⟨rfl, rfl, hc⟩

/-- State for the C2 counterexample: the key holds value 7 cached at time 0
with a two-minute expiry, matching a call configured with
cacheDuration = 120000. -/
def cfgDurSt : RealTimeDataManager Nat :=
  { cache := fun k =>
      if k = "credits" then some { data := 7, timestamp := 0, expiresAt := 120000 } else none,
    loaders := fun _ => none, subscribers := fun _ => none,
    refreshIntervals := fun _ => none }

/-- The options of the C2 counterexample call: a configured two-minute cache
duration. -/
def cfgDurOpts : FetchOptions :=
  { cacheDuration := 120000, critical := false, autoRefresh := true, retryOnError := true }

/-- C2 (counterexample to the claim as stated): at time 50000 the entry age
50000 is strictly below 80% of the duration configured for the call
(96000 = 80% of 120000) and the entry is unexpired, yet fetchData invokes the
fetcher once and returns the newly fetched 99 instead of the cached 7,
because shouldRefresh compares the age against the manager default 30000
rather than the configured duration. -/
theorem cache_hit_configured_duration_cex :
    10 * (50000 - 0) < 8 * 120000 ∧
    cfgDurSt.cache "credits" = some { data := 7, timestamp := 0, expiresAt := 120000 } ∧
    (fetchData cbEnvW cfgDurSt "credits" (fetcherOk 99) cfgDurOpts 50000).fetcherCalls = 1 ∧
    (fetchData cbEnvW cfgDurSt "credits" (fetcherOk 99) cfgDurOpts 50000).result =
      FetchResult.ok 99 := by
  exact ⟨by norm_num, rfl, by decide, by decide⟩

/-- State for the C2 witness: value 7 cached at time 0, expiring at 60000. -/
def freshHitSt : RealTimeDataManager Nat :=
  { cache := fun k =>
      if k = "credits" then some { data := 7, timestamp := 0, expiresAt := 60000 } else none,
    loaders := fun _ => none, subscribers := fun _ => none,
    refreshIntervals := fun _ => none }

/-- C2 witness: at time 20000 the entry of age 20000 is within 80% of the
default duration and unexpired, so the call serves the cached 7 without
touching the fetcher. -/
theorem cache_hit_suppresses_fetch_witness :
    (fetchData cbEnvW freshHitSt "credits" (fetcherOk 99) defaultOptions 20000).result =
      FetchResult.ok 7 ∧
    (fetchData cbEnvW freshHitSt "credits" (fetcherOk 99) defaultOptions 20000).fetcherCalls
      = 0 :=
  have h := cache_hit_suppresses_fetch cbEnvW freshHitSt "credits" (fetcherOk 99)
    defaultOptions 20000 { data := 7, timestamp := 0, expiresAt := 60000 }
    (by decide) (by decide) (by decide)
  ⟨h.1, h.2.1⟩

/-! ### C3: stale-on-error fallback -/

/-- C3 (amended): for every key holding a cache entry that is NOT hard-expired
at the moment the call begins (now <= expiresAt; a possibly stale entry past
its 80% refresh threshold qualifies, a hard-expired one does not, since the
opening cache lookup deletes it), a fetchData call with no fetch in flight
whose fetcher fails on every retry attempt resolves with the previously
cached value rather than rejecting. -/
theorem stale_on_error_fallback {E T : Type} (cbEnv : Nat → T → Option Unit)
    (st : RealTimeDataManager T) (key : String) (fetcher : Nat → Except E T)
    (opts : FetchOptions) (t0 : Nat) (e : CacheEntry T) (errs : Nat → E)
    (hc : st.cache key = some e) (hexp : ¬ e.expiresAt < t0)
    (hnl : (getLoaderState st.loaders key).isLoading = false)
    (hf : ∀ n, fetcher n = Except.error (errs n)) :
    (fetchData cbEnv st key fetcher opts t0).result = FetchResult.ok e.data := by
  rcases hsr : shouldRefresh st.cache key opts.critical t0 with _ | _
  · rw [fetchData_fresh cbEnv st key fetcher opts t0 e hc hexp hsr]
  · rw [fetchData_due cbEnv st key fetcher opts t0 e hc hexp hsr]
    obtain ⟨j, hrr⟩ := executeWithRetry_fail_result fetcher errs
      (getLoaderState st.loaders key).errorCount opts.retryOnError hf
    rw [fetchCore_failure cbEnv st key fetcher opts t0 (errs j) hnl hrr]
    exact (fetchFailure_fallback
      (setLoaderState st key
        { isLoading := true, lastFetch := t0,
          errorCount := (getLoaderState st.loaders key).errorCount, retryAfter := none })
      key (errs j) (getLoaderState st.loaders key).errorCount
      (t0 + (executeWithRetry fetcher (getLoaderState st.loaders key).errorCount
        opts.retryOnError).delays.sum)
      (executeWithRetry fetcher (getLoaderState st.loaders key).errorCount
        opts.retryOnError).calls e hc).1

/-- State for the C3 counterexample and the C3 witness: value 7 cached at
time 0, expiring at time 100. -/
def tinySt : RealTimeDataManager Nat :=
  { cache := fun k =>
      if k = "credits" then some { data := 7, timestamp := 0, expiresAt := 100 } else none,
    loaders := fun _ => none, subscribers := fun _ => none,
    refreshIntervals := fun _ => none }

/-- C3 (counterexample to the claim as stated, which admits every populated,
possibly stale entry): the key is populated with cached value 7, but the
entry is hard-expired at call time 200, so the opening lookup deletes it and
the failing call REJECTS with the final retry error instead of resolving with
the previously cached 7. -/
theorem stale_on_error_expired_cex :
    tinySt.cache "credits" = some { data := 7, timestamp := 0, expiresAt := 100 } ∧
    (fetchData cbEnvW tinySt "credits" fetcherFail defaultOptions 200).result =
      FetchResult.error 3 := by
  exact ⟨rfl, by decide⟩

/-- C3 witness: the same populated entry read at time 50, where it is not yet
hard-expired (but past its refresh threshold is not needed): the failing call
resolves with the cached 7. -/
theorem stale_on_error_fallback_witness :
    (fetchData cbEnvW tinySt "credits" fetcherFail defaultOptions 50).result =
      FetchResult.ok 7 :=
  stale_on_error_fallback cbEnvW tinySt "credits" fetcherFail defaultOptions 50
    { data := 7, timestamp := 0, expiresAt := 100 } (fun n => n)
    (by decide) (by decide) (by decide) (fun n => rfl)

/-! ### C4: error propagation with no cache -/

/-- C4: for every key with no cache entry, a fetchData call with no fetch in
flight, retryOnError on and fewer than maxRetries prior consecutive failures,
whose fetcher fails on all attempts, exhausts the 3 retries (4 fetcher
invocations) and rejects with the final underlying error thrown on the last
attempt. -/
theorem no_cache_error_propagation {E T : Type} (cbEnv : Nat → T → Option Unit)
    (st : RealTimeDataManager T) (key : String) (fetcher : Nat → Except E T)
    (opts : FetchOptions) (t0 : Nat) (errs : Nat → E)
    (hc : st.cache key = none)
    (hnl : (getLoaderState st.loaders key).isLoading = false)
    (hro : opts.retryOnError = true)
    (hec : (getLoaderState st.loaders key).errorCount < maxRetries)
    (hf : ∀ n, fetcher n = Except.error (errs n)) :
    (fetchData cbEnv st key fetcher opts t0).result = FetchResult.error (errs 3) ∧
    (fetchData cbEnv st key fetcher opts t0).fetcherCalls = 4 := by
  rw [fetchData_miss cbEnv st key fetcher opts t0 hc]
  have hrr := executeWithRetry_fail fetcher errs
    (getLoaderState st.loaders key).errorCount opts.retryOnError hf hro hec
  have hres : (executeWithRetry fetcher (getLoaderState st.loaders key).errorCount
      opts.retryOnError).result = Except.error (errs 3) := by rw [hrr]
  rw [fetchCore_failure cbEnv st key fetcher opts t0 (errs 3) hnl hres]
  obtain ⟨h1, _, h3, _⟩ := fetchFailure_throw
    (setLoaderState st key
      { isLoading := true, lastFetch := t0,
        errorCount := (getLoaderState st.loaders key).errorCount, retryAfter := none })
    key (errs 3) (getLoaderState st.loaders key).errorCount
    (t0 + (executeWithRetry fetcher (getLoaderState st.loaders key).errorCount
      opts.retryOnError).delays.sum)
    (executeWithRetry fetcher (getLoaderState st.loaders key).errorCount
      opts.retryOnError).calls hc
  refine ⟨h1, ?_⟩
  rw [h3, hrr]

/-- C4 witness: a failing fetch on the empty manager rejects with the error of
attempt 3 after 4 invocations. -/
theorem no_cache_error_propagation_witness :
    (fetchData cbEnvW emptyManager "credits" fetcherFail defaultOptions 0).result =
      FetchResult.error 3 ∧
    (fetchData cbEnvW emptyManager "credits" fetcherFail defaultOptions 0).fetcherCalls
      = 4 :=
  no_cache_error_propagation cbEnvW emptyManager "credits" fetcherFail defaultOptions 0
    (fun n => n) (by decide) (by decide) (by decide) (by decide) (fun n => rfl)

/-! ### C5: the retry policy -/

/-- C5: within one fetchData call, when retryOnError is on and the key counts
fewer than maxRetries prior consecutive failures, the fetcher runs at most 4
attempts and the slept delays are retryDelayMs attempt for attempt 0, 1, ...
(one per non-final attempt); retryDelayMs 0 = 1000 and retryDelayMs 1 = 1500,
so a fetcher failing twice then succeeding is called exactly 3 times with
delays 1000ms and 1500ms. When retryOnError is off or the failure budget is
exhausted, the fetcher is called exactly once with no inner retry. -/
theorem retry_backoff_policy {E T : Type} (fetcher : Nat → Except E T)
    (errorCount : Nat) (retryOnError : Bool) (e0 e1 : E) (v : T) :
    (retryOnError = true → errorCount < maxRetries →
      (executeWithRetry fetcher errorCount retryOnError).calls ≤ 4 ∧
      (executeWithRetry fetcher errorCount retryOnError).delays =
        (List.range ((executeWithRetry fetcher errorCount retryOnError).calls - 1)).map
          retryDelayMs) ∧
    (retryOnError = false ∨ maxRetries ≤ errorCount →
      (executeWithRetry fetcher errorCount retryOnError).calls = 1 ∧
      (executeWithRetry fetcher errorCount retryOnError).delays = []) ∧
    (retryDelayMs 0 = 1000 ∧ retryDelayMs 1 = 1500) ∧
    (retryOnError = true → errorCount < maxRetries →
      fetcher 0 = Except.error e0 → fetcher 1 = Except.error e1 →
      fetcher 2 = Except.ok v →
      executeWithRetry fetcher errorCount retryOnError =
        { result := Except.ok v, calls := 3, delays := [1000, 1500] }) := by
  refine ⟨?_, ?_, ⟨by decide, by decide⟩, ?_⟩
  · intro h1 h2
    rw [executeWithRetry_loop fetcher errorCount retryOnError h1 h2]
    exact retryLoop3_spec fetcher
  · intro h
    rw [executeWithRetry_single fetcher errorCount retryOnError h]
    exact ⟨rfl, rfl⟩
  · intro h1 h2 hf0 hf1 hf2
    rw [executeWithRetry_loop fetcher errorCount retryOnError h1 h2]
    simp [retryLoop, hf0, hf1, hf2, retryDelayMs]

/-- C5 witness: the two-failures-then-success fetcher with a clean failure
budget runs exactly 3 attempts with delays 1000 and 1500; with the budget
exhausted (errorCount 7) the fetcher runs exactly once. -/
theorem retry_backoff_policy_witness :
    executeWithRetry fetcherTwoFail 0 true =
      { result := Except.ok 42, calls := 3, delays := [1000, 1500] } ∧
    (executeWithRetry fetcherTwoFail 7 true).calls = 1 :=
  ⟨(retry_backoff_policy fetcherTwoFail 0 true 0 1 42).2.2.2 rfl (by decide)
      (by decide) (by decide) (by decide),
   ((retry_backoff_policy fetcherTwoFail 7 true 0 1 42).2.1 (Or.inr (by decide))).1⟩

/-! ### Lemmas about checkLoader polls -/

theorem checkLoader_ok {T : Type} (st : RealTimeDataManager T) (key : String) (now : Nat)
    (v : T) (h : (getLoaderState st.loaders key).isLoading = false)
    (hgc : (getFromCache st.cache key now).1 = some v) :
    (checkLoader st key now).1 = WaitOutcome.ok v := by
  rcases hp : getFromCache st.cache key now with ⟨o, c⟩
  rw [hp] at hgc
  simp only at hgc
  subst hgc
  simp [checkLoader, h, hp]

theorem checkLoader_noData {T : Type} (st : RealTimeDataManager T) (key : String)
    (now : Nat) (h : (getLoaderState st.loaders key).isLoading = false)
    (hgc : (getFromCache st.cache key now).1 = none) :
    (checkLoader st key now).1 = WaitOutcome.noData := by
  rcases hp : getFromCache st.cache key now with ⟨o, c⟩
  rw [hp] at hgc
  simp only at hgc
  subst hgc
  simp [checkLoader, h, hp]

/-- Reading a readable value out of a cache that holds entry e for the key
yields the data of e. -/
theorem getFromCache_read_of_entry {T : Type} (cache : String → Option (CacheEntry T))
    (key : String) (now : Nat) (e : CacheEntry T) (w : T) (hc : cache key = some e)
    (hw : (getFromCache cache key now).1 = some w) : w = e.data := by
  by_cases h2 : e.expiresAt < now
  · rw [getFromCache_expired cache key now e hc h2] at hw; cases hw
  · rw [getFromCache_live cache key now e hc h2] at hw
    simpa using hw.symm

/-! ### C1: deduplication of concurrent fetches -/

/-- C1 (amended): while a fetch for a key is in flight, a further fetchData
call for that key never invokes the fetcher; unless a still-fresh cache entry
answers it directly, the call collapses onto the in-flight fetch (result
deduped) and settles through checkLoader polls; the in-flight call itself
accounts for exactly one invocation when its fetcher resolves on the first
attempt; and when the in-flight call resolves with value d and a readable
cache entry remains at the waiter poll time, the waiting caller receives the
same d. (As stated, the claim also promises the same value when no readable
entry survives to the poll, which fails: see the counterexample.) -/
theorem dedup_awaits_inflight {E T : Type} (cbEnv : Nat → T → Option Unit)
    (st stRun : RealTimeDataManager T) (key : String) (f g : Nat → Except E T)
    (opts : FetchOptions) (t0 tp : Nat) (d : T)
    (hload : (getLoaderState st.loaders key).isLoading = true) :
    (fetchData cbEnv st key g opts t0).fetcherCalls = 0 ∧
    (((getFromCache st.cache key t0).1 = none ∨
        shouldRefresh (getFromCache st.cache key t0).2 key opts.critical t0 = true) →
      (fetchData cbEnv st key g opts t0).result = FetchResult.deduped) ∧
    (f 0 = Except.ok d →
      ((getFromCache stRun.cache key t0).1 = none ∨
        shouldRefresh (getFromCache stRun.cache key t0).2 key opts.critical t0 = true) →
      (getLoaderState stRun.loaders key).isLoading = false →
      (fetchData cbEnv stRun key f opts t0).fetcherCalls = 1) ∧
    ((getLoaderState stRun.loaders key).isLoading = false →
      (fetchData cbEnv stRun key f opts t0).result = FetchResult.ok d →
      ∀ w, (getFromCache (fetchData cbEnv stRun key f opts t0).state.cache key tp).1
          = some w →
        (checkLoader (fetchData cbEnv stRun key f opts t0).state key tp).1 =
          WaitOutcome.ok d ∧ w = d) := by
  refine ⟨fetchData_loading_calls cbEnv st key g opts t0 hload, ?_, ?_, ?_⟩
  · intro hdue
    rw [fetchData_to_core cbEnv st key g opts t0 hdue]
    rw [fetchCore_loading cbEnv { st with cache := (getFromCache st.cache key t0).2 }
      key g opts t0 hload]
  · intro hf0 hdue hnl
    rw [fetchData_to_core cbEnv stRun key f opts t0 hdue]
    rw [fetchCore_calls cbEnv { stRun with cache := (getFromCache stRun.cache key t0).2 }
      key f opts t0 hnl]
    rw [executeWithRetry_firstOk f _ opts.retryOnError d hf0]
  · intro hnl hok w hw
    obtain ⟨e, hce, hed⟩ := fetchData_ok_cache cbEnv stRun key f opts t0 d hok
    have hwd : w = d := by
      rw [← hed]
      exact getFromCache_read_of_entry _ key tp e w hce hw
    subst hwd
    exact ⟨checkLoader_ok _ key tp w
      (fetchData_post_not_loading cbEnv stRun key f opts t0 hnl) hw, rfl⟩

/-- State for the C1 counterexample and witness: the key is mid-flight. -/
def inflightSt : RealTimeDataManager Nat :=
  { cache := fun _ => none,
    loaders := fun k =>
      if k = "k" then
        some { isLoading := true, lastFetch := 0, errorCount := 0, retryAfter := none }
      else none,
    subscribers := fun _ => none, refreshIntervals := fun _ => none }

/-- Options with a zero cache duration, as a caller may pass. -/
def zeroDurOpts : FetchOptions :=
  { cacheDuration := 0, critical := false, autoRefresh := false, retryOnError := true }

/-- C1 (counterexample to the claim as stated): with cacheDuration 0, a second
caller dedupes onto the in-flight fetch (zero invocations), the in-flight
call resolves with 5, but the entry cached at completion time 0 expires at 0,
so at the 100ms poll the waiter rejects with the no-data error instead of
receiving the same resolved value 5. -/
theorem dedup_same_value_cex :
    (fetchData cbEnvW inflightSt "k" (fetcherOk 5) zeroDurOpts 0).result =
      FetchResult.deduped ∧
    (fetchData cbEnvW inflightSt "k" (fetcherOk 5) zeroDurOpts 0).fetcherCalls = 0 ∧
    (fetchData cbEnvW emptyManager "k" (fetcherOk 5) zeroDurOpts 0).result =
      FetchResult.ok 5 ∧
    (checkLoader (fetchData cbEnvW emptyManager "k" (fetcherOk 5) zeroDurOpts 0).state
      "k" 100).1 = WaitOutcome.noData := by
  exact ⟨by decide, by decide, by decide, by decide⟩

/-- C1 witness: with the default options, the deduped caller performs no
invocation and returns deduped, the in-flight call performs exactly one and
resolves with 5, and the waiter poll at 100ms receives the same 5. -/
theorem dedup_awaits_inflight_witness :
    (fetchData cbEnvW inflightSt "k" (fetcherOk 5) defaultOptions 0).fetcherCalls = 0 ∧
    (fetchData cbEnvW inflightSt "k" (fetcherOk 5) defaultOptions 0).result =
      FetchResult.deduped ∧
    (fetchData cbEnvW emptyManager "k" (fetcherOk 5) defaultOptions 0).fetcherCalls = 1 ∧
    (checkLoader (fetchData cbEnvW emptyManager "k" (fetcherOk 5) defaultOptions 0).state
      "k" 100).1 = WaitOutcome.ok 5 :=
  have h := dedup_awaits_inflight cbEnvW inflightSt emptyManager "k" (fetcherOk 5)
    (fetcherOk 5) defaultOptions 0 100 5 (by decide)
  ⟨h.1, h.2.1 (Or.inl (by decide)),
   h.2.2.1 rfl (Or.inl (by decide)) (by decide),
   (h.2.2.2 (by decide) (by decide) 5 (by decide)).1⟩

/-! ### C9: the waiter error is freshly constructed -/

/-- C9: a caller that deduped onto an in-flight fetch settles through
checkLoader; when the in-flight fetch completes without leaving a readable
(unexpired) cache entry, the waiter rejects with the freshly constructed
no-data error, a constructor carrying no underlying fetcher error. In
particular when the in-flight call itself rejects with the final fetcher
error (no cache to fall back to), the two concurrent callers observe
different errors. -/
theorem waiter_rejects_fresh_error {E T : Type} (cbEnv : Nat → T → Option Unit)
    (st stDone : RealTimeDataManager T) (key : String) (fetcher : Nat → Except E T)
    (opts : FetchOptions) (t0 tp : Nat) (errs : Nat → E) :
    ((getLoaderState stDone.loaders key).isLoading = false →
      (getFromCache stDone.cache key tp).1 = none →
      (checkLoader stDone key tp).1 = WaitOutcome.noData) ∧
    (st.cache key = none →
      (getLoaderState st.loaders key).isLoading = false →
      opts.retryOnError = true →
      (getLoaderState st.loaders key).errorCount < maxRetries →
      (∀ n, fetcher n = Except.error (errs n)) →
      (fetchData cbEnv st key fetcher opts t0).result = FetchResult.error (errs 3) ∧
      (checkLoader (fetchData cbEnv st key fetcher opts t0).state key tp).1 =
        WaitOutcome.noData) := by
  refine ⟨fun h hgc => checkLoader_noData stDone key tp h hgc, ?_⟩
  intro hc hnl hro hec hf
  rw [fetchData_miss cbEnv st key fetcher opts t0 hc]
  have hrr := executeWithRetry_fail fetcher errs
    (getLoaderState st.loaders key).errorCount opts.retryOnError hf hro hec
  have hres : (executeWithRetry fetcher (getLoaderState st.loaders key).errorCount
      opts.retryOnError).result = Except.error (errs 3) := by rw [hrr]
  rw [fetchCore_failure cbEnv st key fetcher opts t0 (errs 3) hnl hres]
  obtain ⟨h1, h2, _, h4⟩ := fetchFailure_throw
    (setLoaderState st key
      { isLoading := true, lastFetch := t0,
        errorCount := (getLoaderState st.loaders key).errorCount, retryAfter := none })
    key (errs 3) (getLoaderState st.loaders key).errorCount
    (t0 + (executeWithRetry fetcher (getLoaderState st.loaders key).errorCount
      opts.retryOnError).delays.sum)
    (executeWithRetry fetcher (getLoaderState st.loaders key).errorCount
      opts.retryOnError).calls hc
  refine ⟨h1, ?_⟩
  refine checkLoader_noData _ key tp (by rw [h4]) ?_
  rw [getFromCache_none _ key tp h2]

/-- C9 witness: the first caller of a failing no-cache fetch rejects with the
final fetcher error 3, while the deduped waiter polling afterwards rejects
with the no-data outcome, not the fetcher error. -/
theorem waiter_rejects_fresh_error_witness :
    (checkLoader emptyManager "k" 7).1 = WaitOutcome.noData ∧
    (fetchData cbEnvW emptyManager "k" fetcherFail defaultOptions 0).result =
      FetchResult.error 3 ∧
    (checkLoader (fetchData cbEnvW emptyManager "k" fetcherFail defaultOptions 0).state
      "k" 9999).1 = WaitOutcome.noData :=
  have h := waiter_rejects_fresh_error cbEnvW emptyManager emptyManager "k" fetcherFail
    defaultOptions 0 9999 (fun n => n)
  have h7 := waiter_rejects_fresh_error cbEnvW emptyManager emptyManager "k" fetcherFail
    defaultOptions 0 7 (fun n => n)
  have h2 := h.2 (by decide) (by decide) (by decide) (by decide) (fun n => rfl)
  ⟨h7.1 (by decide) (by decide), h2.1, h2.2⟩

/-! ### C6: the backoff window is stored but never consulted -/

/-- C6 (amended): after a failure the loader state stores
retryAfter = completion time + backoffMultiplier ^ newErrorCount * 1000 (the
formula of the claim), but nothing ever reads it back: a scheduled
auto-refresh tick for a key with subscribers whose entry is missing or due,
with no fetch in flight, invokes the fetcher at least once with no condition
on retryAfter (note no hypothesis below constrains it), and an explicit
caller-initiated fetchData call proceeds just the same. The claim that
voluntary refreshes wait for retryNotBefore fails: see the counterexample. -/
theorem backoff_not_consulted {E T : Type} (cbEnv : Nat → T → Option Unit)
    (st : RealTimeDataManager T) (key : String) (fetcher : Nat → Except E T)
    (opts : FetchOptions) (t : Nat) (subs : List Nat) (errs : Nat → E)
    (hsubs : st.subscribers key = some subs) (hne : subs ≠ [])
    (hnl : (getLoaderState st.loaders key).isLoading = false)
    (hdue : (getFromCache st.cache key t).1 = none ∨
      shouldRefresh (getFromCache st.cache key t).2 key opts.critical t = true) :
    1 ≤ (autoTick cbEnv st key fetcher opts t).2 ∧
    1 ≤ (fetchData cbEnv st key fetcher opts t).fetcherCalls ∧
    ((∀ n, fetcher n = Except.error (errs n)) →
      (getLoaderState (fetchData cbEnv st key fetcher opts t).state.loaders key).retryAfter
        = some (((t + (executeWithRetry fetcher
            (getLoaderState st.loaders key).errorCount opts.retryOnError).delays.sum : Nat)
            : ℚ) +
          backoffMultiplier ^ ((getLoaderState st.loaders key).errorCount + 1) * 1000)) := by
  have hexplicit : 1 ≤ (fetchData cbEnv st key fetcher opts t).fetcherCalls := by
    rw [fetchData_to_core cbEnv st key fetcher opts t hdue]
    rw [fetchCore_calls cbEnv { st with cache := (getFromCache st.cache key t).2 }
      key fetcher opts t hnl]
    exact executeWithRetry_calls_pos fetcher _ opts.retryOnError
  refine ⟨?_, hexplicit, ?_⟩
  · have hdue2 : (getFromCache st.cache key t).1 = none ∨
        shouldRefresh (getFromCache st.cache key t).2 key
          ({ opts with autoRefresh := false } : FetchOptions).critical t = true := hdue
    have htick : 1 ≤ (fetchData cbEnv st key fetcher
        { opts with autoRefresh := false } t).fetcherCalls := by
      rw [fetchData_to_core cbEnv st key fetcher { opts with autoRefresh := false } t hdue2]
      rw [fetchCore_calls cbEnv { st with cache := (getFromCache st.cache key t).2 }
        key fetcher { opts with autoRefresh := false } t hnl]
      exact executeWithRetry_calls_pos fetcher _ _
    have hlen : 0 < subs.length := List.length_pos.mpr hne
    simpa [autoTick, hsubs, hlen] using htick
  · intro hf
    obtain ⟨j, hrr⟩ := executeWithRetry_fail_result fetcher errs
      (getLoaderState st.loaders key).errorCount opts.retryOnError hf
    rw [fetchData_to_core cbEnv st key fetcher opts t hdue]
    rw [fetchCore_failure cbEnv { st with cache := (getFromCache st.cache key t).2 }
      key fetcher opts t (errs j) hnl hrr]
    rcases hfb : (setLoaderState { st with cache := (getFromCache st.cache key t).2 } key
        { isLoading := true, lastFetch := t,
          errorCount := (getLoaderState st.loaders key).errorCount,
          retryAfter := none }).cache key with _ | fb
    · rw [(fetchFailure_throw _ key (errs j) _ _ _ hfb).2.2.2]
    · rw [(fetchFailure_fallback _ key (errs j) _ _ _ fb hfb).2.2.2]

/-- State for the C6 counterexample: the key failed once at 9750 and carries
retryAfter 11250 (= 9750 + 1.5 * 1000), has one subscriber and a 5s refresh
schedule, with no cache entry and no fetch in flight. -/
def backoffSt : RealTimeDataManager Nat :=
  { cache := fun _ => none,
    loaders := fun k =>
      if k = "k" then
        some { isLoading := false, lastFetch := 9750, errorCount := 1,
               retryAfter := some 11250 }
      else none,
    subscribers := fun k => if k = "k" then some [0] else none,
    refreshIntervals := fun k => if k = "k" then some 5000 else none }

/-- C6 (counterexample to the claim as stated): the stored backoff timestamp
11250 matches the formula 9750 + backoffMultiplier ^ 1 * 1000, the tick time
10000 lies strictly before it, yet the scheduled auto-refresh tick at 10000
invokes the fetcher once: the voluntary path does not respect the backoff
window. -/
theorem backoff_window_cex :
    (9750 : ℚ) + backoffMultiplier ^ 1 * 1000 = 11250 ∧
    (getLoaderState backoffSt.loaders "k").retryAfter = some 11250 ∧
    (10000 : ℚ) < 11250 ∧
    (autoTick cbEnvW backoffSt "k" (fetcherOk 1) defaultOptions 10000).2 = 1 :=
  ⟨by norm_num [backoffMultiplier], by decide, by decide, by decide⟩

/-- C6 witness: on the same backoff state (retryAfter still pending at time
10000), the tick and an explicit call both invoke the fetcher. -/
theorem backoff_not_consulted_witness :
    1 ≤ (autoTick cbEnvW backoffSt "k" (fetcherOk 1) defaultOptions 10000).2 ∧
    1 ≤ (fetchData cbEnvW backoffSt "k" (fetcherOk 1) defaultOptions 10000).fetcherCalls :=
  have h := backoff_not_consulted cbEnvW backoffSt "k" (fetcherOk 1) defaultOptions 10000
    [0] (fun n => n) (by decide) (by decide) (by decide) (Or.inl (by decide))
  ⟨h.1, h.2.1⟩

/-! ### C7: the last unsubscribe cancels the auto-refresh schedule -/

/-- C7: when the last registered subscriber of a key unsubscribes, the
subscriber set and the auto-refresh interval of the key are removed - so a
later tick performs no fetch and changes nothing - while the cache map is left
entirely unchanged. -/
theorem last_unsubscribe_cancels_refresh {E T : Type} (st : RealTimeDataManager T)
    (key : String) (cb : Nat) (hsubs : st.subscribers key = some [cb]) :
    (unsubscribe st key cb).subscribers key = none ∧
    (unsubscribe st key cb).refreshIntervals key = none ∧
    (unsubscribe st key cb).cache = st.cache ∧
    ∀ (cbEnv : Nat → T → Option Unit) (fetcher : Nat → Except E T)
      (opts : FetchOptions) (t : Nat),
      autoTick cbEnv (unsubscribe st key cb) key fetcher opts t =
        (unsubscribe st key cb, 0) := by
  have hu : unsubscribe st key cb =
      { st with subscribers := mapUpdate st.subscribers key none,
                refreshIntervals := mapUpdate st.refreshIntervals key none } := by
    simp [unsubscribe, hsubs]
  rw [hu]
  refine ⟨mapUpdate_same _ _ _, mapUpdate_same _ _ _, rfl, ?_⟩
  intro cbEnv fetcher opts t
  simp [autoTick, mapUpdate_same]

/-- State for the C7 witness: a cached value, one subscriber (handle 4) and an
armed 30s refresh schedule. -/
def subbedSt : RealTimeDataManager Nat :=
  { cache := fun k =>
      if k = "k" then some { data := 7, timestamp := 0, expiresAt := 30000 } else none,
    loaders := fun _ => none,
    subscribers := fun k => if k = "k" then some [4] else none,
    refreshIntervals := fun k => if k = "k" then some 30000 else none }

/-- C7 witness: after the sole subscriber unsubscribes, the schedule and the
subscriber set are gone, the cache entry survives, and a tick two refresh
periods later fetches nothing and changes nothing. -/
theorem last_unsubscribe_cancels_refresh_witness :
    (unsubscribe subbedSt "k" 4).subscribers "k" = none ∧
    (unsubscribe subbedSt "k" 4).refreshIntervals "k" = none ∧
    (unsubscribe subbedSt "k" 4).cache = subbedSt.cache ∧
    autoTick cbEnvW (unsubscribe subbedSt "k" 4) "k" (fetcherOk 9) defaultOptions 60000 =
      (unsubscribe subbedSt "k" 4, 0) :=
  have h := last_unsubscribe_cancels_refresh (E := Nat) subbedSt "k" 4 (by decide)
  ⟨h.1, h.2.1, h.2.2.1, h.2.2.2 cbEnvW (fetcherOk 9) defaultOptions 60000⟩

/-! ### C8: subscriber fan-out and callback isolation -/

/-- C8: a fetchData call that actually fetches and succeeds notifies every
currently registered subscriber of the key exactly once with the fetched
value, in registration order; the callback environment (including callbacks
that throw, which are caught and logged) influences neither the notification
of the other subscribers nor the result of the call itself. -/
theorem subscriber_fanout {E T : Type} [DecidableEq T]
    (cbEnv cbEnv2 : Nat → T → Option Unit) (st : RealTimeDataManager T) (key : String)
    (fetcher : Nat → Except E T) (opts : FetchOptions) (t0 : Nat) (subs : List Nat)
    (d : T) (hsubs : st.subscribers key = some subs)
    (hnl : (getLoaderState st.loaders key).isLoading = false)
    (hdue : (getFromCache st.cache key t0).1 = none ∨
      shouldRefresh (getFromCache st.cache key t0).2 key opts.critical t0 = true)
    (hok : (executeWithRetry fetcher (getLoaderState st.loaders key).errorCount
      opts.retryOnError).result = Except.ok d) :
    (fetchData cbEnv st key fetcher opts t0).notified = subs.map (fun i => (i, d)) ∧
    (subs.Nodup → (fetchData cbEnv st key fetcher opts t0).notified.Nodup) ∧
    (∀ i, (i, d) ∈ (fetchData cbEnv st key fetcher opts t0).notified ↔ i ∈ subs) ∧
    (fetchData cbEnv st key fetcher opts t0).result = FetchResult.ok d ∧
    (fetchData cbEnv2 st key fetcher opts t0).result = FetchResult.ok d := by
  have main : ∀ cb : Nat → T → Option Unit,
      (fetchData cb st key fetcher opts t0).notified = subs.map (fun i => (i, d)) ∧
      (fetchData cb st key fetcher opts t0).result = FetchResult.ok d := by
    intro cb
    rw [fetchData_to_core cb st key fetcher opts t0 hdue]
    rw [fetchCore_success cb { st with cache := (getFromCache st.cache key t0).2 }
      key fetcher opts t0 d hnl hok]
    obtain ⟨hr, _, _, hnot, _⟩ := fetchSuccess_fields (E := E) cb
      (setLoaderState { st with cache := (getFromCache st.cache key t0).2 } key
        { isLoading := true, lastFetch := t0,
          errorCount := (getLoaderState st.loaders key).errorCount, retryAfter := none })
      key d opts
      (t0 + (executeWithRetry fetcher (getLoaderState st.loaders key).errorCount
        opts.retryOnError).delays.sum)
      (executeWithRetry fetcher (getLoaderState st.loaders key).errorCount
        opts.retryOnError).calls
    refine ⟨?_, hr⟩
    rw [hnot]
    have hs2 : (setLoaderState { st with cache := (getFromCache st.cache key t0).2 } key
        { isLoading := true, lastFetch := t0,
          errorCount := (getLoaderState st.loaders key).errorCount,
          retryAfter := none }).subscribers key = some subs := hsubs
    rw [hs2]
    simp only [Option.getD_some]
    exact notifySubscribers_log cb d subs
  have hinj : Function.Injective (fun i : Nat => (i, d)) := by
    intro a b hab
    simpa using congrArg Prod.fst hab
  refine ⟨(main cbEnv).1, ?_, ?_, (main cbEnv).2, (main cbEnv2).2⟩
  · intro hnd
    rw [(main cbEnv).1]
    exact List.Nodup.map hinj hnd
  · intro i
    rw [(main cbEnv).1]
    exact List.mem_map_of_injective hinj

/-- State for the C8 witness: subscribers 1 and 2 registered on the key. -/
def fanoutSt : RealTimeDataManager Nat :=
  { cache := fun _ => none, loaders := fun _ => none,
    subscribers := fun k => if k = "k" then some [1, 2] else none,
    refreshIntervals := fun _ => none }

/-- A callback environment in which every callback throws. -/
def cbEnvThrow : Nat → Nat → Option Unit := fun _ _ => none

/-- C8 witness: a successful fetch notifies subscribers 1 and 2 once each with
the value 5 and resolves with 5, also when every callback throws. -/
theorem subscriber_fanout_witness :
    (fetchData cbEnvW fanoutSt "k" (fetcherOk 5) defaultOptions 0).notified =
      [(1, 5), (2, 5)] ∧
    (fetchData cbEnvW fanoutSt "k" (fetcherOk 5) defaultOptions 0).notified.Nodup ∧
    ((1, 5) ∈ (fetchData cbEnvW fanoutSt "k" (fetcherOk 5) defaultOptions 0).notified ↔
      1 ∈ [1, 2]) ∧
    (fetchData cbEnvW fanoutSt "k" (fetcherOk 5) defaultOptions 0).result =
      FetchResult.ok 5 ∧
    (fetchData cbEnvThrow fanoutSt "k" (fetcherOk 5) defaultOptions 0).result =
      FetchResult.ok 5 :=
  have h := subscriber_fanout cbEnvW cbEnvThrow fanoutSt "k" (fetcherOk 5) defaultOptions
    0 [1, 2] 5 (by decide) (by decide) (Or.inl (by decide)) (by decide)
  ⟨h.1, h.2.1 (by decide), h.2.2.1 1, h.2.2.2.1, h.2.2.2.2⟩

/-! ### C10: the opening lookup purges hard-expired entries -/

/-- C10: the cache lookup that opens every fetchData call deletes the entry of
the key whenever the current time is past its expiresAt, so after the lookup
the key holds no hard-expired entry; consequently a call whose fetcher fails
on every attempt can resolve only with the data of an entry that was present
and not yet expired at the moment the call began. -/
theorem lookup_purges_expired {E T : Type} (cache : String → Option (CacheEntry T))
    (keyL : String) (now : Nat) (e0 : CacheEntry T) (cbEnv : Nat → T → Option Unit)
    (st : RealTimeDataManager T) (key : String) (fetcher : Nat → Except E T)
    (opts : FetchOptions) (t0 : Nat) (errs : Nat → E) (v : T) :
    ((getFromCache cache keyL now).2 keyL = some e0 → ¬ e0.expiresAt < now) ∧
    ((∀ n, fetcher n = Except.error (errs n)) →
      (getLoaderState st.loaders key).isLoading = false →
      (fetchData cbEnv st key fetcher opts t0).result = FetchResult.ok v →
      ∃ e, st.cache key = some e ∧ e.data = v ∧ ¬ e.expiresAt < t0) := by
  constructor
  · intro h0
    rcases hc : cache keyL with _ | e
    · rw [getFromCache_none cache keyL now hc] at h0
      have h0x : cache keyL = some e0 := h0
      rw [hc] at h0x; cases h0x
    · by_cases h2 : e.expiresAt < now
      · rw [getFromCache_expired cache keyL now e hc h2] at h0
        have h0x : mapUpdate cache keyL none keyL = some e0 := h0
        rw [mapUpdate_same] at h0x; cases h0x
      · rw [getFromCache_live cache keyL now e hc h2] at h0
        have h0x : cache keyL = some e0 := h0
        rw [hc] at h0x
        injection h0x with hh
        subst hh
        exact h2
  · intro hf hnl hok
    have hthrow : ∀ st1 : RealTimeDataManager T, st1.loaders = st.loaders →
        st1.cache key = none →
        (fetchCore cbEnv st1 key fetcher opts t0).result = FetchResult.ok v → False := by
      intro st1 hlo hc1 hr
      have hnl1 : (getLoaderState st1.loaders key).isLoading = false := by
        rw [hlo]; exact hnl
      obtain ⟨j, hrr⟩ := executeWithRetry_fail_result fetcher errs
        (getLoaderState st1.loaders key).errorCount opts.retryOnError hf
      rw [fetchCore_failure cbEnv st1 key fetcher opts t0 (errs j) hnl1 hrr] at hr
      rw [(fetchFailure_throw
        (setLoaderState st1 key
          { isLoading := true, lastFetch := t0,
            errorCount := (getLoaderState st1.loaders key).errorCount,
            retryAfter := none })
        key (errs j) (getLoaderState st1.loaders key).errorCount
        (t0 + (executeWithRetry fetcher (getLoaderState st1.loaders key).errorCount
          opts.retryOnError).delays.sum)
        (executeWithRetry fetcher (getLoaderState st1.loaders key).errorCount
          opts.retryOnError).calls hc1).1] at hr
      cases hr
    rcases hc : st.cache key with _ | e
    · rw [fetchData_miss cbEnv st key fetcher opts t0 hc] at hok
      exact absurd hok (fun h => hthrow st rfl hc h)
    · by_cases h2 : e.expiresAt < t0
      · rw [fetchData_expired cbEnv st key fetcher opts t0 e hc h2] at hok
        exact absurd hok
          (fun h => hthrow { st with cache := mapUpdate st.cache key none } rfl
            (mapUpdate_same _ _ _) h)
      · rcases hsr : shouldRefresh st.cache key opts.critical t0 with _ | _
        · rw [fetchData_fresh cbEnv st key fetcher opts t0 e hc h2 hsr] at hok
          have hv : e.data = v := by simpa using hok
          exact ⟨e, rfl, hv, h2⟩
        · rw [fetchData_due cbEnv st key fetcher opts t0 e hc h2 hsr] at hok
          obtain ⟨j, hrr⟩ := executeWithRetry_fail_result fetcher errs
            (getLoaderState st.loaders key).errorCount opts.retryOnError hf
          rw [fetchCore_failure cbEnv st key fetcher opts t0 (errs j) hnl hrr] at hok
          rw [(fetchFailure_fallback
            (setLoaderState st key
              { isLoading := true, lastFetch := t0,
                errorCount := (getLoaderState st.loaders key).errorCount,
                retryAfter := none })
            key (errs j) (getLoaderState st.loaders key).errorCount
            (t0 + (executeWithRetry fetcher (getLoaderState st.loaders key).errorCount
              opts.retryOnError).delays.sum)
            (executeWithRetry fetcher (getLoaderState st.loaders key).errorCount
              opts.retryOnError).calls e hc).1] at hok
          have hv : e.data = v := by simpa using hok
          exact ⟨e, rfl, hv, h2⟩

/-- State for the C10 witness: a live entry holding 7, expiring at 300. -/
def liveSt : RealTimeDataManager Nat :=
  { cache := fun k =>
      if k = "k" then some { data := 7, timestamp := 0, expiresAt := 300 } else none,
    loaders := fun _ => none, subscribers := fun _ => none,
    refreshIntervals := fun _ => none }

/-- C10 witness: the entry surviving the lookup at time 200 is unexpired, and
a failing call at 200 resolves with 7, the data of an entry that was present
and unexpired when the call began. -/
theorem lookup_purges_expired_witness :
    ¬ ({ data := 7, timestamp := 0, expiresAt := 300 } : CacheEntry Nat).expiresAt < 200 ∧
    (∃ e, liveSt.cache "k" = some e ∧ e.data = 7 ∧ ¬ e.expiresAt < 200) :=
  have h := lookup_purges_expired liveSt.cache "k" 200
    ({ data := 7, timestamp := 0, expiresAt := 300 } : CacheEntry Nat)
    cbEnvW liveSt "k" fetcherFail defaultOptions 200 (fun n => n) 7
  ⟨h.1 (by decide), h.2 (fun n => rfl) (by decide) (by decide)⟩

end RealTimeData
